import Mathlib

/-!
Verification development for the video-game-sales notebook pipeline
(DataEngineeringA2Notebook.py).

The notebook is a linear Spark pipeline: CSV ingestion into a persistent
table, column casts, a (discarded) dropna, recomputation of Global_Sales,
rank reassignment, four group-by/sum rollups left-joined back onto the
base table, a column reorder and a CSV export, followed by report queries
and chart rendering.

The embedding below models one Spark partition with stable row order:
a dataframe is a `List` of rows, a null cell is `none`, doubles are
modelled as exact rationals, and the Spark string casts are modelled as
total parsers returning `Option` (cast failure = `none`, as in Spark's
permissive cast).  Scientific notation is not used by the dataset and is
not modelled by the double parser.
-/

attribute [local semireducible] Rat.add Rat.mul Rat.sub Rat.inv

/-- Strip leading and trailing spaces, as Spark's string casts do. -/
def trimChars (cs : List Char) : List Char :=
  ((cs.dropWhile fun c => c = ' ').reverse.dropWhile fun c => c = ' ').reverse

/-- Value of a non-empty all-digit character list; `none` otherwise. -/
def digitsVal (cs : List Char) : Option Nat :=
  if cs.isEmpty then none
  else
    cs.foldl
      (fun acc c =>
        match acc with
        | none => none
        | some n => if c.isDigit then some (n * 10 + (c.toNat - 48)) else none)
      (some 0)

/-- Split a character list on a separator character (keeping empty pieces). -/
def splitCharAux (sep : Char) : List Char → List Char → List (List Char)
  | [], acc => [acc.reverse]
  | c :: cs, acc =>
    if c = sep then acc.reverse :: splitCharAux sep cs []
    else splitCharAux sep cs (c :: acc)

def splitChar (sep : Char) (cs : List Char) : List (List Char) :=
  splitCharAux sep cs []

/-- Model of Spark `cast(IntegerType)` on a string cell: optional sign,
digits only, 32-bit range; anything else becomes null. -/
def castInt (s : String) : Option Int :=
  match trimChars s.toList with
  | '-' :: cs =>
    match digitsVal cs with
    | some n => if n ≤ 2 ^ 31 then some (-(n : Int)) else none
    | none => none
  | '+' :: cs =>
    match digitsVal cs with
    | some n => if n < 2 ^ 31 then some (n : Int) else none
    | none => none
  | cs =>
    match digitsVal cs with
    | some n => if n < 2 ^ 31 then some (n : Int) else none
    | none => none

def castDoubleBody (sgn : Int) (body : List Char) : Option ℚ :=
  match splitChar '.' body with
  | [ip] =>
    match digitsVal ip with
    | some n => some (Rat.divInt (sgn * (n : Int)) 1)
    | none => none
  | [ip, fp] =>
    if ip.isEmpty && fp.isEmpty then none
    else
      match (if ip.isEmpty then some 0 else digitsVal ip),
            (if fp.isEmpty then some 0 else digitsVal fp) with
      | some n, some m =>
        some (Rat.divInt (sgn * ((n * 10 ^ fp.length + m : Nat) : Int))
          ((10 ^ fp.length : Nat) : Int))
      | _, _ => none
  | _ => none

/-- Model of Spark `cast(DoubleType)` on a string cell: optional sign,
decimal digits with at most one point; anything else becomes null.
Sales values are modelled as exact rationals. -/
def castDouble (s : String) : Option ℚ :=
  match trimChars s.toList with
  | '-' :: cs => castDoubleBody (-1) cs
  | '+' :: cs => castDoubleBody 1 cs
  | cs => castDoubleBody 1 cs

/-- A calendar date (what Spark's `DateType` stores). -/
structure SDate where
  y : Int
  m : Nat
  d : Nat
deriving DecidableEq

def monthDays (y : Int) (m : Nat) : Nat :=
  if m = 2 then (if (y % 4 = 0 ∧ ¬y % 100 = 0) ∨ y % 400 = 0 then 29 else 28)
  else if m = 4 ∨ m = 6 ∨ m = 9 ∨ m = 11 then 30 else 31

/-- Model of Spark `cast(DateType)` on a string cell: accepts `yyyy`,
`yyyy-mm` and `yyyy-mm-dd` with valid month and day; anything else
(e.g. the dataset's literal `"N/A"`) becomes null. -/
def castDate (s : String) : Option SDate :=
  match splitChar '-' (trimChars s.toList) with
  | [ys] =>
    match digitsVal ys with
    | some y => some ⟨(y : Int), 1, 1⟩
    | none => none
  | [ys, ms] =>
    match digitsVal ys, digitsVal ms with
    | some y, some m => if 1 ≤ m ∧ m ≤ 12 then some ⟨(y : Int), m, 1⟩ else none
    | _, _ => none
  | [ys, ms, ds] =>
    match digitsVal ys, digitsVal ms, digitsVal ds with
    | some y, some m, some d =>
      if 1 ≤ m ∧ m ≤ 12 ∧ 1 ≤ d ∧ d ≤ monthDays (y : Int) m then
        some ⟨(y : Int), m, d⟩
      else none
    | _, _, _ => none
  | _ => none

def pad4 (n : Nat) : String :=
  let s := toString n
  if s.length < 4 then String.mk (List.replicate (4 - s.length) '0') ++ s else s

def pad2 (n : Nat) : String :=
  if n < 10 then "0" ++ toString n else toString n

/-- Model of `date_format(col, "yyyy")`: the zero-padded year as a string,
null in, null out. -/
def dateFormatYYYY (d : Option SDate) : Option String :=
  d.map fun x => if x.y < 0 then "-" ++ pad4 x.y.natAbs else pad4 x.y.natAbs

/-- Lexicographic order on dates. -/
def dateLe (a b : SDate) : Bool :=
  decide (a.y < b.y) ||
    (decide (a.y = b.y) &&
      (decide (a.m < b.m) || (decide (a.m = b.m) && decide (a.d ≤ b.d))))

/-- One row of the raw CSV / the persistent `gamestb` table: every column
is a text cell, possibly null. -/
structure RawRow where
  rank : Option String
  name : Option String
  platform : Option String
  year : Option String
  genre : Option String
  publisher : Option String
  na_sales : Option String
  eu_sales : Option String
  jp_sales : Option String
  other_sales : Option String
  global_sales : Option String
deriving DecidableEq

/-- A row of the working `gamestb` dataframe; `Y` is the current type of
the Year column (a date right after the casts, a `yyyy` string after the
`date_format` step). -/
structure GRow (Y : Type) where
  rank : Option Int
  name : Option String
  platform : Option String
  year : Y
  genre : Option String
  publisher : Option String
  na_sales : Option ℚ
  eu_sales : Option ℚ
  jp_sales : Option ℚ
  other_sales : Option ℚ
  global_sales : Option ℚ
deriving DecidableEq

abbrev NRow := GRow (Option SDate)
abbrev CRow := GRow (Option String)

/-- The Schema Normalizer: the `withColumn(... cast ...)` block
(source lines 54-68).  A null cell stays null; a failed cast becomes
null; string columns are untouched. -/
def normalizeRow (r : RawRow) : NRow :=
  { rank := r.rank.bind castInt
    name := r.name
    platform := r.platform
    year := r.year.bind castDate
    genre := r.genre
    publisher := r.publisher
    na_sales := r.na_sales.bind castDouble
    eu_sales := r.eu_sales.bind castDouble
    jp_sales := r.jp_sales.bind castDouble
    other_sales := r.other_sales.bind castDouble
    global_sales := r.global_sales.bind castDouble }

def gamestbNormalized (t : List RawRow) : List NRow :=
  t.map normalizeRow

/-- True when no column of the row is null. -/
def dropnaRow (r : NRow) : Bool :=
  r.rank.isSome && r.name.isSome && r.platform.isSome && r.year.isSome &&
    r.genre.isSome && r.publisher.isSome && r.na_sales.isSome &&
    r.eu_sales.isSome && r.jp_sales.isSome && r.other_sales.isSome &&
    r.global_sales.isSome

/-- What `gamestb.dropna()` (source line 93) computes.  In the source this
expression statement does not assign its result back to `gamestb`, so the
pipeline below continues from the unfiltered table; this definition
records the value the discarded call produced. -/
def dropnaResult (t : List NRow) : List NRow :=
  t.filter dropnaRow

/-- The `date_format(col("year"), "yyyy")` step (source line 98). -/
def toYearString (r : NRow) : CRow :=
  { rank := r.rank
    name := r.name
    platform := r.platform
    year := dateFormatYYYY r.year
    genre := r.genre
    publisher := r.publisher
    na_sales := r.na_sales
    eu_sales := r.eu_sales
    jp_sales := r.jp_sales
    other_sales := r.other_sales
    global_sales := r.global_sales }

def gamestbYear (t : List RawRow) : List CRow :=
  (gamestbNormalized t).map toYearString

/-- SQL addition: null if either operand is null. -/
def optAdd (a b : Option ℚ) : Option ℚ :=
  match a, b with
  | some x, some y => some (x + y)
  | _, _ => none

/-- The Global_Sales recomputation (source line 103): the source file's
value is overwritten by the sum of the four regional columns. -/
def recomputeGlobal (r : CRow) : CRow :=
  { r with
    global_sales :=
      optAdd (optAdd (optAdd r.na_sales r.eu_sales) r.jp_sales) r.other_sales }

def gamestbGlobal (t : List RawRow) : List CRow :=
  (gamestbYear t).map recomputeGlobal

/-- Rational comparison on the numerator/denominator representation. -/
def qLe (a b : ℚ) : Bool :=
  decide (a.num * (b.den : Int) ≤ b.num * (a.den : Int))

/-- Order on nullable sort keys with null smallest (Spark's default puts
nulls last in a descending sort). -/
def qOptLe (a b : Option ℚ) : Bool :=
  match a, b with
  | none, _ => true
  | some _, none => false
  | some x, some y => qLe x y

/-- Row comparison for `orderBy(col("Global_Sales").desc())`. -/
def globalDescLe (a b : CRow) : Bool :=
  qOptLe b.global_sales a.global_sales

/-- Stable insertion into a sorted list: the inserted element (earlier in
input order) goes before any tie. -/
def sInsert {α : Type} (le : α → α → Bool) (x : α) : List α → List α
  | [] => [x]
  | y :: ys => if le x y then x :: y :: ys else y :: sInsert le x ys

/-- Stable sort by a boolean comparison, modelling Spark's `orderBy` on a
single partition with stable input order. -/
def stableSort {α : Type} (le : α → α → Bool) : List α → List α
  | [] => []
  | x :: xs => sInsert le x (stableSort le xs)

/-- `sorted_gamestb` (source line 108): the table ordered by the corrected
Global_Sales descending. -/
def sorted_gamestb (t : List RawRow) : List CRow :=
  stableSort globalDescLe (gamestbGlobal t)

/-- `monotonically_increasing_id() + 1` on a single partition: sequential
ids starting from the given value. -/
def assignRankFrom (i : Int) : List CRow → List CRow
  | [] => []
  | r :: rs => { r with rank := some i } :: assignRankFrom (i + 1) rs

def assignRank (t : List CRow) : List CRow :=
  assignRankFrom 1 t

/-- The corrected `gamestb` (source line 113): Global_Sales recomputed,
sorted descending, Rank repopulated from the row pointer. -/
def gamestbCorrected (t : List RawRow) : List CRow :=
  assignRank (sorted_gamestb t)

/-- Spark aggregate `sum` over a column: nulls are skipped; a group whose
values are all null sums to null. -/
def sumAgg (vs : List (Option ℚ)) : Option ℚ :=
  match vs.filterMap (fun x => x) with
  | [] => none
  | x :: xs => some (x + xs.sum)

/-- One `groupBy(key).agg(sum ...)` block followed by the derived total
column (sum of the four regional sums), as in source lines 118-133,
143-158, 170-185, 198-213: a (key, total) table with one row per distinct
key value of the corrected base table. -/
def rollupGroupTotal (key : CRow → Option String) (t : List CRow)
    (k : Option String) : Option ℚ :=
  let grp := t.filter fun r => decide (key r = k)
  optAdd
    (optAdd
      (optAdd (sumAgg (grp.map fun r => r.na_sales))
        (sumAgg (grp.map fun r => r.eu_sales)))
      (sumAgg (grp.map fun r => r.jp_sales)))
    (sumAgg (grp.map fun r => r.other_sales))

def rollupBy (key : CRow → Option String) (t : List CRow) :
    List (Option String × Option ℚ) :=
  ((t.map key).dedup).map fun k => (k, rollupGroupTotal key t k)

/-- SQL left-join lookup on a key column: a null key matches nothing, a
non-null key selects the first aggregate row carrying it. -/
def lookupKey (k : Option String) (tbl : List (Option String × Option ℚ)) :
    Option ℚ :=
  match k with
  | none => none
  | some s =>
    match tbl.find? (fun p => decide (p.1 = some s)) with
    | some p => p.2
    | none => none

/-- A left join against an aggregate table whose keys are distinct (as the
`rollupBy` tables are): each left row gains exactly one new column. -/
def joinStep {α : Type} (keyOf : α → Option String)
    (agg : List (Option String × Option ℚ)) (t : List α) :
    List (α × Option ℚ) :=
  t.map fun r => (r, lookupKey (keyOf r) agg)

def total_sales_agg (t : List RawRow) : List (Option String × Option ℚ) :=
  rollupBy (fun r => r.name) (gamestbCorrected t)

/-- Source line 138: join Game_Total_Sales onto the base table by Name. -/
def gamestb_with_totals (t : List RawRow) : List (CRow × Option ℚ) :=
  joinStep (fun r => r.name) (total_sales_agg t) (gamestbCorrected t)

def publisher_sales_agg (t : List RawRow) : List (Option String × Option ℚ) :=
  rollupBy (fun r => r.publisher) (gamestbCorrected t)

/-- Source lines 163-165: join Publisher_Total_Sales by Publisher. -/
def df_with_totals_and_publisher_sales (t : List RawRow) :
    List ((CRow × Option ℚ) × Option ℚ) :=
  joinStep (fun x => x.1.publisher) (publisher_sales_agg t)
    (gamestb_with_totals t)

def platform_sales_agg (t : List RawRow) : List (Option String × Option ℚ) :=
  rollupBy (fun r => r.platform) (gamestbCorrected t)

/-- Source lines 190-193: join Platform_Total_Sales by Platform. -/
def df_with_totals_publisher_platform (t : List RawRow) :
    List (((CRow × Option ℚ) × Option ℚ) × Option ℚ) :=
  joinStep (fun x => x.1.1.platform) (platform_sales_agg t)
    (df_with_totals_and_publisher_sales t)

def genre_sales_agg (t : List RawRow) : List (Option String × Option ℚ) :=
  rollupBy (fun r => r.genre) (gamestbCorrected t)

/-- Source lines 218-221: join Genre_Total_Sales by Genre. -/
def df_with_totals_publisher_platform_genre (t : List RawRow) :
    List ((((CRow × Option ℚ) × Option ℚ) × Option ℚ) × Option ℚ) :=
  joinStep (fun x => x.1.1.1.genre) (genre_sales_agg t)
    (df_with_totals_publisher_platform t)

/-- One row of the exported table, fields in the canonical export order
(source lines 240-256). -/
structure FinalRow where
  rank : Option Int
  name : Option String
  platform : Option String
  year : Option SDate
  genre : Option String
  publisher : Option String
  na_sales : Option ℚ
  eu_sales : Option ℚ
  jp_sales : Option ℚ
  other_sales : Option ℚ
  global_sales : Option ℚ
  game_total : Option ℚ
  publisher_total : Option ℚ
  platform_total : Option ℚ
  genre_total : Option ℚ
deriving DecidableEq

/-- `finalgames` (source lines 240-256): columns reordered and the `yyyy`
string Year cast back to a date. -/
def finalgames (t : List RawRow) : List FinalRow :=
  (df_with_totals_publisher_platform_genre t).map fun x =>
    { rank := x.1.1.1.1.rank
      name := x.1.1.1.1.name
      platform := x.1.1.1.1.platform
      year := x.1.1.1.1.year.bind castDate
      genre := x.1.1.1.1.genre
      publisher := x.1.1.1.1.publisher
      na_sales := x.1.1.1.1.na_sales
      eu_sales := x.1.1.1.1.eu_sales
      jp_sales := x.1.1.1.1.jp_sales
      other_sales := x.1.1.1.1.other_sales
      global_sales := x.1.1.1.1.global_sales
      game_total := x.1.1.1.2
      publisher_total := x.1.1.2
      platform_total := x.1.2
      genre_total := x.2 }

def showOptStr : Option String → String
  | none => ""
  | some s => s

def showOptInt : Option Int → String
  | none => ""
  | some n => toString n

def showQ (q : ℚ) : String :=
  toString q.num ++ "/" ++ toString q.den

def showOptQ : Option ℚ → String
  | none => ""
  | some q => showQ q

def showOptDate : Option SDate → String
  | none => ""
  | some d =>
    (if d.y < 0 then "-" ++ pad4 d.y.natAbs else pad4 d.y.natAbs) ++ "-" ++
      pad2 d.m ++ "-" ++ pad2 d.d

/-- The exported header row: the CSV is written with `header` true. -/
def exportHeader : List String :=
  ["Rank", "Name", "Platform", "Year", "Genre", "Publisher", "NA_Sales",
    "EU_Sales", "JP_Sales", "Other_Sales", "Global_Sales",
    "Game_Total_Sales", "Publisher_Total_Sales", "Platform_Total_Sales",
    "Genre_Total_Sales"]

/-- One serialized data row of the export, cells in header order. -/
def showFinalRow (r : FinalRow) : List String :=
  [showOptInt r.rank, showOptStr r.name, showOptStr r.platform,
    showOptDate r.year, showOptStr r.genre, showOptStr r.publisher,
    showOptQ r.na_sales, showOptQ r.eu_sales, showOptQ r.jp_sales,
    showOptQ r.other_sales, showOptQ r.global_sales, showOptQ r.game_total,
    showOptQ r.publisher_total, showOptQ r.platform_total,
    showOptQ r.genre_total]

/-- The content of the exported delimited file. -/
structure CsvFile where
  header : List String
  rows : List (List String)
deriving DecidableEq

/-- `finalgames.write.option("header", true).mode("overwrite").csv(...)`
(source line 261): whatever was previously at the output location is
replaced, so the previous content does not influence the result. -/
def writeFinal (t : List FinalRow) (_prev : Option CsvFile) : CsvFile :=
  ⟨exportHeader, t.map showFinalRow⟩

/-- `CREATE TABLE IF NOT EXISTS gamestb AS SELECT * FROM temp_table`
followed by `spark.table("gamestb")` (source lines 28-38): when no table
exists the raw file becomes the table; when a table exists it is left
unchanged and is what the run consumes. -/
def ingest (file : List RawRow) (store : Option (List RawRow)) :
    List RawRow × Option (List RawRow) :=
  match store with
  | none => (file, some file)
  | some t => (t, some t)

/-- One full run of the pipeline as a function of the raw input file and
the persistent table state: it yields the exported file and the table
state left behind. -/
def runPipeline (file : List RawRow) (store : Option (List RawRow)) :
    CsvFile × Option (List RawRow) :=
  (writeFinal (finalgames (ingest file store).1) none,
    (ingest file store).2)

def optIntLe (a b : Option Int) : Bool :=
  match a, b with
  | none, _ => true
  | some _, none => false
  | some x, some y => decide (x ≤ y)

/-- Row comparison for `orderBy(finalgames["Rank"].asc())`. -/
def rankAscLe (a b : FinalRow) : Bool :=
  optIntLe a.rank b.rank

/-- The `col("Year") >= "2010-01-01"` filter: a null Year never passes. -/
def since2010Row (r : FinalRow) : Bool :=
  match r.year with
  | none => false
  | some d => dateLe ⟨2010, 1, 1⟩ d

/-- `top_ranked_games` (source line 334): final table by Rank ascending,
first ten rows. -/
def top_ranked_games (t : List FinalRow) : List FinalRow :=
  (stableSort rankAscLe t).take 10

/-- `top_ranked_games_2010` (source line 361): rows since 2010 by Rank
ascending, first ten rows. -/
def top_ranked_games_2010 (t : List FinalRow) : List FinalRow :=
  (stableSort rankAscLe (t.filter since2010Row)).take 10

/-- The first platform-color lookup table (source lines 343-350). -/
def platformColorsA : String → Option String := fun p =>
  (([("Wii", "blue"), ("NES", "green"), ("Gameboy", "red"),
      ("DS", "purple"), ("Mobile", "orange"), ("Switch", "yellow")] :
    List (String × String)).find? fun q => decide (q.1 = p)).map
    fun q => q.2

/-- The second platform-color lookup table (source lines 370-376). -/
def platformColorsB : String → Option String := fun p =>
  (([("PS3", "blue"), ("X360", "green"), ("PS4", "red"), ("DS", "purple"),
      ("3DS", "orange")] : List (String × String)).find? fun q =>
    decide (q.1 = p)).map fun q => q.2

/-- The Color column of the first (all-time) top-ranked chart
(source line 352): the first mapping applied to that frame's own
Platform column. -/
def alltime_colors (t : List FinalRow) : List (Option String) :=
  (top_ranked_games t).map fun r => r.platform.bind platformColorsA

/-- The Color column the code attaches to the since-2010 frame
(source line 378): for each row position of the since-2010 frame, the
second mapping applied to the ALL-TIME frame's Platform value at that
position (pandas aligns the two range indexes positionally; a missing
position or unmapped platform yields NaN = `none`). -/
def since2010_colors (t : List FinalRow) : List (Option String) :=
  (List.range (top_ranked_games_2010 t).length).map fun i =>
    match (top_ranked_games t).get? i with
    | none => none
    | some r => r.platform.bind platformColorsB

/-- Modelled from the spec: the color assignment the since-2010 chart was
meant to perform — its own mapping applied to its own query result.
Stated only for comparison with `since2010_colors`, which models the
code. -/
def since2010_colors_spec (t : List FinalRow) : List (Option String) :=
  (top_ranked_games_2010 t).map fun r => r.platform.bind platformColorsB

/-- A fully valid input row: the spec's scenario row
(Name Alpha, NA 1.0, EU 2.0, JP 0.0, Other 0.5, source Global 99.0). -/
def alphaRaw : RawRow :=
  { rank := some "1", name := some "Alpha", platform := some "Wii",
    year := some "2006", genre := some "Action", publisher := some "Acme",
    na_sales := some "1.0", eu_sales := some "2.0", jp_sales := some "0.0",
    other_sales := some "0.5", global_sales := some "99.0" }

/-- The Alpha row with an unparseable Year, which casts to null. -/
def alphaBad : RawRow :=
  { alphaRaw with year := some "N/A" }

/-- A row whose NA_Sales cell fails the double cast, leaving a null. -/
def betaRaw : RawRow :=
  { rank := some "2", name := some "Beta", platform := some "PS4",
    year := some "2012", genre := some "Sports", publisher := some "Acme",
    na_sales := some "abc", eu_sales := some "1.0", jp_sales := some "0.0",
    other_sales := some "0.0", global_sales := some "1.0" }

def rowsC2 : List RawRow :=
  [alphaRaw, betaRaw]

/-- An Acme row with a null regional cell (NA_Sales fails its cast). -/
def acme1 : RawRow :=
  { rank := some "1", name := some "G1", platform := some "Wii",
    year := some "2006", genre := some "Action", publisher := some "Acme",
    na_sales := some "x", eu_sales := some "1.0", jp_sales := some "0.0",
    other_sales := some "0.0", global_sales := some "1.0" }

/-- A clean Acme row with regional sales summing to 2.0. -/
def acme2 : RawRow :=
  { rank := some "2", name := some "G2", platform := some "PS4",
    year := some "2011", genre := some "Sports", publisher := some "Acme",
    na_sales := some "2.0", eu_sales := some "0.0", jp_sales := some "0.0",
    other_sales := some "0.0", global_sales := some "9.0" }

def rowsC4 : List RawRow :=
  [acme1, acme2]

/-- The corrected row the pipeline produces from `[alphaRaw]`: the source
Global_Sales 99.0 is replaced by 1.0 + 2.0 + 0.0 + 0.5 = 3.5. -/
def cRowAlpha : CRow :=
  { rank := some 1, name := some "Alpha", platform := some "Wii",
    year := some "2006", genre := some "Action", publisher := some "Acme",
    na_sales := some 1, eu_sales := some 2, jp_sales := some 0,
    other_sales := some (Rat.divInt 1 2), global_sales := some (Rat.divInt 7 2) }

/-- A final-table row whose release predates 2010 on a platform only the
first color table knows. -/
def rowWii : FinalRow :=
  { rank := some 1, name := some "A", platform := some "Wii",
    year := some ⟨1985, 1, 1⟩, genre := some "Action", publisher := some "N",
    na_sales := some 1, eu_sales := some 0, jp_sales := some 0,
    other_sales := some 0, global_sales := some 1, game_total := some 1,
    publisher_total := some 1, platform_total := some 1,
    genre_total := some 1 }

/-- A final-table row since 2010 on a platform the second color table
maps to red. -/
def rowPS4 : FinalRow :=
  { rank := some 2, name := some "B", platform := some "PS4",
    year := some ⟨2015, 1, 1⟩, genre := some "Action", publisher := some "N",
    na_sales := some 1, eu_sales := some 0, jp_sales := some 0,
    other_sales := some 0, global_sales := some 1, game_total := some 1,
    publisher_total := some 1, platform_total := some 1,
    genre_total := some 1 }

def demoFinal : List FinalRow :=
  [rowWii, rowPS4]

theorem get?_map_comm {α β : Type} (f : α → β) :
    ∀ (l : List α) (i : Nat), (l.map f).get? i = (l.get? i).map f
  | [], i => by cases i <;> rfl
  | _ :: _, 0 => rfl
  | _ :: l, i + 1 => get?_map_comm f l i

theorem map_pair_fst {α β : Type} (g : α → β) :
    ∀ l : List α, ((l.map fun a => (a, g a)).map Prod.fst) = l
  | [] => rfl
  | a :: l => congrArg (List.cons a) (map_pair_fst g l)

theorem rollupBy_keys_nodup (key : CRow → Option String) (t : List CRow) :
    ((rollupBy key t).map Prod.fst).Nodup := by
  have h : (rollupBy key t).map Prod.fst = (t.map key).dedup :=
    map_pair_fst (rollupGroupTotal key t) ((t.map key).dedup)
  rw [h]
  exact List.nodup_dedup (t.map key)

theorem sInsert_perm {α : Type} (le : α → α → Bool) (x : α) :
    ∀ l : List α, List.Perm (sInsert le x l) (x :: l) := by
  intro l
  induction l with
  | nil => exact List.Perm.refl _
  | cons y l ih =>
    show List.Perm (if le x y then x :: y :: l else y :: sInsert le x l) _
    by_cases hc : le x y = true
    · rw [if_pos hc]
    · rw [if_neg hc]
      exact (ih.cons y).trans (List.Perm.swap x y l)

theorem stableSort_perm {α : Type} (le : α → α → Bool) :
    ∀ l : List α, List.Perm (stableSort le l) l
  | [] => List.Perm.refl _
  | x :: l => (sInsert_perm le x (stableSort le l)).trans
      ((stableSort_perm le l).cons x)

theorem assignRankFrom_global_sales : ∀ (i : Int) (l : List CRow),
    (∀ s ∈ l, s.global_sales =
      optAdd (optAdd (optAdd s.na_sales s.eu_sales) s.jp_sales) s.other_sales) →
    ∀ r ∈ assignRankFrom i l, r.global_sales =
      optAdd (optAdd (optAdd r.na_sales r.eu_sales) r.jp_sales) r.other_sales
  | _, [], _, r, hr => absurd hr (List.not_mem_nil r)
  | i, a :: l, hP, r, hr => by
    rcases List.mem_cons.mp hr with h1 | h1
    · rw [h1]
      exact hP a (List.mem_cons_self a l)
    · exact assignRankFrom_global_sales (i + 1) l
        (fun s hs => hP s (List.mem_cons_of_mem a hs)) r h1

/-- Claim C1: the code does NOT remove null rows before later stages
consume the table.  `gamestb.dropna()` (line 93) would have dropped the
row whose Year fails its cast, but its result is discarded, so the row —
with a null Year column — is still present in the corrected table, in the
rollup input and in the exported table. -/
theorem null_rows_survive_discarded_dropna :
    dropnaResult (gamestbNormalized [alphaBad]) = [] ∧
    ((gamestbCorrected [alphaBad]).map fun r => r.year) = [none] ∧
    ((finalgames [alphaBad]).map fun r => r.year) = [none] ∧
    (finalgames [alphaBad]).length = 1 := by
  decide

/-- Claim C2: on a two-row input whose second row has an uncastable
NA_Sales cell, the drop-null count is N = 1, yet the code assigns ranks
1 and 2 because the dropna result was discarded — the Rank column is not
a permutation of 1..N. -/
theorem rank_exceeds_dropnull_count :
    ((gamestbCorrected rowsC2).map fun r => r.rank) = [some 1, some 2] ∧
    (dropnaResult (gamestbNormalized rowsC2)).length = 1 := by
  decide

/-- Claim C3: every row of the corrected table carries, as its
Global_Sales cell, exactly the (null-propagating) sum of its four
regional sales cells — the source file's value is gone. -/
theorem global_sales_recomputed (raw : List RawRow) (r : CRow)
    (h : r ∈ gamestbCorrected raw) :
    r.global_sales =
      optAdd (optAdd (optAdd r.na_sales r.eu_sales) r.jp_sales)
        r.other_sales := by
  refine assignRankFrom_global_sales 1 (sorted_gamestb raw) ?_ r h
  intro s hs
  have hs2 : s ∈ gamestbGlobal raw :=
    ((stableSort_perm globalDescLe (gamestbGlobal raw)).mem_iff).mp hs
  rcases List.mem_map.mp hs2 with ⟨x, _, rfl⟩
  rfl

/-- Witness for C3, on the spec's scenario row: the pipelined Alpha row
(regional sales 1.0, 2.0, 0.0, 0.5, source Global_Sales 99.0) comes out
with Global_Sales 7/2 = 3.5, and the theorem applies to it. -/
theorem global_sales_recomputed_scenario :
    gamestbCorrected [alphaRaw] = [cRowAlpha] ∧
    cRowAlpha.global_sales =
      optAdd (optAdd (optAdd cRowAlpha.na_sales cRowAlpha.eu_sales)
        cRowAlpha.jp_sales) cRowAlpha.other_sales :=
  ⟨by decide, global_sales_recomputed [alphaRaw] cRowAlpha (by decide)⟩

/-- Claim C4: with a null regional cell surviving (the discarded dropna),
both Acme rows receive Publisher_Total_Sales 3.0 — the per-column group
sums skip the null NA cell but count that row's EU cell — while the sum
of the corrected Global_Sales over the Acme rows is 2.0. -/
theorem publisher_total_diverges_from_global_sum :
    ((finalgames rowsC4).map fun r => r.publisher_total) =
      [some 3, some 3] ∧
    sumAgg ((gamestbCorrected rowsC4).map fun r => r.global_sales) =
      some 2 := by
  decide

/-- Claim C5: running the pipeline a second time on the same input file,
starting from the table state the first run left behind, produces the
same exported file as the first run. -/
theorem pipeline_idempotent (file : List RawRow) :
    (runPipeline file ((runPipeline file none).2)).1 =
      (runPipeline file none).1 :=
  rfl

/-- Claim C6: the Color values of the since-2010 chart are the second
mapping applied to the ALL-TIME query's Platform column, not to the
since-2010 query's own Platform column: on `demoFinal` the all-time
top row is on Wii (unmapped, so the color is null) although the chart's
own only row is on PS4 (which the mapping sends to red). -/
theorem since2010_colors_from_alltime_column :
    ((top_ranked_games demoFinal).map fun r => r.platform) =
      [some "Wii", some "PS4"] ∧
    ((top_ranked_games_2010 demoFinal).map fun r => r.platform) =
      [some "PS4"] ∧
    since2010_colors demoFinal = [none] ∧
    since2010_colors_spec demoFinal = [some "red"] ∧
    since2010_colors demoFinal ≠ since2010_colors_spec demoFinal := by
  decide

/-- Claim C7: each of the four rollup left-joins adds exactly one column
(by construction the pair component) and leaves every previous column
value of every row, and the row count, unchanged; the join keys of each
aggregate table are pairwise distinct, so no join can duplicate rows. -/
theorem joins_preserve_rows_and_columns (raw : List RawRow) :
    (gamestb_with_totals raw).map Prod.fst = gamestbCorrected raw ∧
    (df_with_totals_and_publisher_sales raw).map Prod.fst =
      gamestb_with_totals raw ∧
    (df_with_totals_publisher_platform raw).map Prod.fst =
      df_with_totals_and_publisher_sales raw ∧
    (df_with_totals_publisher_platform_genre raw).map Prod.fst =
      df_with_totals_publisher_platform raw ∧
    (df_with_totals_publisher_platform_genre raw).length =
      (gamestbCorrected raw).length ∧
    ((total_sales_agg raw).map Prod.fst).Nodup ∧
    ((publisher_sales_agg raw).map Prod.fst).Nodup ∧
    ((platform_sales_agg raw).map Prod.fst).Nodup ∧
    ((genre_sales_agg raw).map Prod.fst).Nodup := by
  refine ⟨map_pair_fst _ _, map_pair_fst _ _, map_pair_fst _ _,
    map_pair_fst _ _, ?_, rollupBy_keys_nodup _ _, rollupBy_keys_nodup _ _,
    rollupBy_keys_nodup _ _, rollupBy_keys_nodup _ _⟩
  simp [df_with_totals_publisher_platform_genre,
    df_with_totals_publisher_platform, df_with_totals_and_publisher_sales,
    gamestb_with_totals, joinStep]

/-- Claim C8: normalization is total and cell-wise — every output cell is
the cast of the corresponding input cell, a failed cast yields a null
cell rather than aborting (the casts are `Option`-valued total
functions), the row count is preserved, and a row with a failed cell
(such as `alphaBad`, whose Year is "N/A") is still normalized and kept. -/
theorem casts_null_on_failure (raw : List RawRow) (i : Nat) :
    (gamestbNormalized raw).length = raw.length ∧
    (gamestbNormalized raw).get? i = (raw.get? i).map normalizeRow ∧
    (∀ r : RawRow,
      (normalizeRow r).rank = r.rank.bind castInt ∧
      (normalizeRow r).year = r.year.bind castDate ∧
      (normalizeRow r).na_sales = r.na_sales.bind castDouble ∧
      (normalizeRow r).eu_sales = r.eu_sales.bind castDouble ∧
      (normalizeRow r).jp_sales = r.jp_sales.bind castDouble ∧
      (normalizeRow r).other_sales = r.other_sales.bind castDouble ∧
      (normalizeRow r).global_sales = r.global_sales.bind castDouble) ∧
    castInt "abc" = none ∧ castDate "N/A" = none ∧
    castDouble "abc" = none ∧ (normalizeRow alphaBad).year = none ∧
    gamestbNormalized [alphaBad] = [normalizeRow alphaBad] :=
  ⟨by simp [gamestbNormalized], get?_map_comm normalizeRow raw i,
    fun r => ⟨rfl, rfl, rfl, rfl, rfl, rfl, rfl⟩,
    by decide, by decide, by decide, by decide, rfl⟩

/-- Claim C9: the export carries a header row with the fifteen columns in
exactly the canonical order, its data rows are the serialized final rows
(fifteen cells each, aligned with the header), and whatever was
previously at the output location has no influence on the result. -/
theorem export_layout (t : List FinalRow) (prev prev2 : Option CsvFile)
    (r : FinalRow) :
    (writeFinal t prev).header =
      ["Rank", "Name", "Platform", "Year", "Genre", "Publisher",
        "NA_Sales", "EU_Sales", "JP_Sales", "Other_Sales", "Global_Sales",
        "Game_Total_Sales", "Publisher_Total_Sales", "Platform_Total_Sales",
        "Genre_Total_Sales"] ∧
    writeFinal t prev = writeFinal t prev2 ∧
    (writeFinal t prev).rows = t.map showFinalRow ∧
    (showFinalRow r).length = 15 :=
  ⟨rfl, rfl, rfl, rfl⟩

/-- Claim C10: `CREATE TABLE IF NOT EXISTS` materializes the raw file as
the table only when no table exists; when a table exists it is left
unchanged, and the whole run — including its exported output — is then
independent of the current raw input file. -/
theorem ingest_create_once (file file2 t : List RawRow) :
    ingest file none = (file, some file) ∧
    ingest file2 (some t) = (t, some t) ∧
    runPipeline file2 (some t) = runPipeline file (some t) :=
  ⟨rfl, rfl, rfl⟩
